import Mathlib

/-!
Verification of the agentic-commerce workflow (router → agent → tool executor
→ policy guard → responder).

Shallow embedding of the Python sources under `src/agent/`:

* `tools.py` — `validate_order_id`, `order_cancel`, `product_search`;
* `nodes/policy_guard.py` — `policy_guard_node`;
* `nodes/router.py` — `deterministic_keyword_routing`, `router_node`;
* `graph.py` — `tool_executor_node`'s state update and `route_after_tools`;
* `state.py` — the accumulating `AgentState` fields.

Modelling conventions:

* Timestamps are integers (seconds); `datetime.fromisoformat` parsing is the
  identity on well-formed inputs, so the unparsable-timestamp error branch
  (which no claim exercises) has no counterpart here.
* The JSON order/product stores are passed as explicit parsed lists; the
  file-unreadable error branch likewise has no counterpart.
* Tool results and policy decisions are flat JSON objects: association lists
  of string keys and leaf values, which covers every shape the embedded code
  produces or inspects.
* `minutes = total_seconds() / 60` is computed in `Rat` (the Python values at
  stake are exact to well within double precision).
-/

/-- Leaf JSON values appearing in the tools' result dictionaries. -/
inductive JLeaf where
  | null
  | bool (b : Bool)
  | num (q : Rat)
  | str (s : String)
deriving DecidableEq, Repr

/-- A flat JSON object: an association list of keys and leaf values.
Python dicts have unique keys; lookups read the first binding. -/
abbrev JObj := List (String × JLeaf)

/-- `d.get(k)` on a Python dict: the value at the first binding of `k`, if any. -/
def jGet (o : JObj) (k : String) : Option JLeaf :=
  (o.find? (fun kv => kv.1 == k)).map (fun kv => kv.2)

/-- `needle` occurs at the head of `hay` (character lists). -/
def headMatch : List Char → List Char → Bool
  | [], _ => true
  | _ :: _, [] => false
  | a :: as, b :: bs => a == b && headMatch as bs

/-- `needle` occurs somewhere inside `hay` (character lists). -/
def subAt (needle : List Char) : List Char → Bool
  | [] => needle.isEmpty
  | c :: rest => headMatch needle (c :: rest) || subAt needle rest

/-- Python's `needle in hay` substring test. -/
def containsSub (hay needle : String) : Bool :=
  subAt needle.data hay.data

/-- ASCII lowercasing of one character. -/
def asciiLower (c : Char) : Char :=
  if 'A' ≤ c ∧ c ≤ 'Z' then Char.ofNat (c.toNat + 32) else c

/-- Python's `str.lower()`. The keyword tables and catalog data in play are
ASCII, so the ASCII case mapping suffices. -/
def pyLower (s : String) : String :=
  ⟨s.data.map asciiLower⟩

/-- The code-point ranges of Unicode general category Nd (decimal digits):
exactly the characters Python's regex `\d` matches on a `str` pattern
(enumerated from CPython 3.11's `re` engine, Unicode 14.0). -/
def pyDigitRanges : List (Nat × Nat) :=
  [(48, 57), (1632, 1641), (1776, 1785), (1984, 1993), (2406, 2415),
   (2534, 2543), (2662, 2671), (2790, 2799), (2918, 2927), (3046, 3055),
   (3174, 3183), (3302, 3311), (3430, 3439), (3558, 3567), (3664, 3673),
   (3792, 3801), (3872, 3881), (4160, 4169), (4240, 4249), (6112, 6121),
   (6160, 6169), (6470, 6479), (6608, 6617), (6784, 6793), (6800, 6809),
   (6992, 7001), (7088, 7097), (7232, 7241), (7248, 7257), (42528, 42537),
   (43216, 43225), (43264, 43273), (43472, 43481), (43504, 43513),
   (43600, 43609), (44016, 44025), (65296, 65305), (66720, 66729),
   (68912, 68921), (69734, 69743), (69872, 69881), (69942, 69951),
   (70096, 70105), (70384, 70393), (70736, 70745), (70864, 70873),
   (71248, 71257), (71360, 71369), (71472, 71481), (71904, 71913),
   (72016, 72025), (72784, 72793), (73040, 73049), (73120, 73129),
   (92768, 92777), (92864, 92873), (93008, 93017), (120782, 120831),
   (123200, 123209), (123632, 123641), (125264, 125273), (130032, 130041)]

/-- Python's regex `\d` on one character: any Unicode decimal digit. -/
def pyIsDigit (c : Char) : Bool :=
  pyDigitRanges.any (fun r => r.1 ≤ c.toNat && c.toNat ≤ r.2)

/-- `validate_order_id` (tools.py): `re.match(r"^A\d{4}$", order_id)`.
`\d` matches any Unicode decimal digit (`pyIsDigit`), and `$` with
`re.match` also accepts a single trailing newline, so the accepted strings
are `A` + four Unicode digits, optionally followed by `"\n"`. -/
def validate_order_id (order_id : String) : Bool :=
  match order_id.data with
  | c0 :: a :: b :: c :: d :: rest =>
      c0 == 'A' && pyIsDigit a && pyIsDigit b && pyIsDigit c && pyIsDigit d &&
        (rest == [] || rest == ['\n'])
  | _ => false

/-- An order record, with the fields `order_cancel` reads.
`created_at` is the parsed timestamp in seconds. -/
structure Order where
  order_id : String
  email : String
  created_at : Int
deriving DecidableEq, Repr

/-- The parsed contents of `orders.json`. -/
abbrev Store := List Order

/-- Python `round(x, 1)`: round to the nearest tenth, ties to even. -/
def pyRound1 (q : Rat) : Rat :=
  let x : Rat := q * 10
  let f : Int := ⌊x⌋
  let r : Rat := x - (f : Rat)
  let n : Int :=
    if r < 1/2 then f
    else if r > 1/2 then f + 1
    else if f % 2 = 0 then f else f + 1
  (n : Rat) / 10

/-- Python `int(x)`: truncation toward zero. -/
def pyTrunc (q : Rat) : Int :=
  if 0 ≤ q then ⌊q⌋ else -⌊-q⌋

/-- `order_cancel` (tools.py): validate the id, find the order, compare the
elapsed minutes against the 60-minute window, and return the result dict.
`now` is the resolved reference time (the parsed `simulated_now`, or the real
current time). -/
def order_cancel (store : Store) (order_id : String) (now : Int) : JObj :=
  if !validate_order_id order_id then
    [("success", JLeaf.bool false),
     ("error", JLeaf.str ("Invalid order ID format: " ++ order_id ++
        ". Order IDs should be in format A1234."))]
  else
    match store.find? (fun o => o.order_id == order_id) with
    | none =>
        [("success", JLeaf.bool false),
         ("error", JLeaf.str ("Order " ++ order_id ++ " not found in the system."))]
    | some o =>
        let time_diff_minutes : Rat := ((now - o.created_at : Int) : Rat) / 60
        if time_diff_minutes ≤ 60 then
          [("success", JLeaf.bool true),
           ("message", JLeaf.str ("Order " ++ order_id ++
              " has been successfully canceled.")),
           ("canceled_at", JLeaf.num (now : Rat)),
           ("minutes_since_order", JLeaf.num (pyRound1 time_diff_minutes))]
        else
          [("success", JLeaf.bool false),
           ("reason", JLeaf.str
              "Cancellation failed: Order was placed more than 60 minutes ago."),
           ("minutes_since_order", JLeaf.num ((pyTrunc time_diff_minutes : Int) : Rat)),
           ("policy", JLeaf.str
              "Orders can only be canceled within 60 minutes of placement.")]

/-- `order_cancel` with the store threaded through explicitly: the source
only ever opens `orders.json` for reading and performs no write, so the
store passes through unchanged. -/
def order_cancel_run (store : Store) (order_id : String) (now : Int) :
    JObj × Store :=
  (order_cancel store order_id now, store)

/-! ## Policy guard (nodes/policy_guard.py) -/

/-- An evidence entry as the guard's scan sees it: `some o` when
`json.loads` yields an object `o`, `none` when the entry is not valid JSON
(or the key test raises a caught `TypeError`). -/
abbrev EvidenceItem := Option JObj

/-- The duck-typed detection of the cancellation tool's output shape:
`"success" in data and "reason" in data`. -/
def duckMatch (o : JObj) : Bool :=
  (jGet o "success").isSome && (jGet o "reason").isSome

/-- The guard's scan loop: the first evidence entry that parses as an object
with both a `success` and a `reason` key. -/
def findCancelOutput (evidence : List EvidenceItem) : Option JObj :=
  evidence.findSome? (fun item =>
    match item with
    | none => none
    | some o => if duckMatch o then some o else none)

/-- `policy_guard_node` (policy_guard.py): returns the `policy_decision`
update. `none` models Python `None`; the decision dicts are
`{"cancel_allowed": False, "reason": ...}` and `{"cancel_allowed": True}`. -/
def policy_guard_node (intent : Option String) (evidence : List EvidenceItem) :
    Option JObj :=
  if intent ≠ some "order_help" then none
  else if evidence.isEmpty then none
  else
    match findCancelOutput evidence with
    | none => none
    | some data =>
        if jGet data "success" == some (JLeaf.bool false) then
          some [("cancel_allowed", JLeaf.bool false),
                ("reason", (jGet data "reason").getD JLeaf.null)]
        else
          some [("cancel_allowed", JLeaf.bool true)]

/-! ## Agent state, tool executor and routing (state.py, graph.py) -/

/-- One executed tool invocation: the requested tool name (from the
`tool_calls` batch) and the serialized result it produced (one
`ToolMessage` per call). -/
structure ToolCall where
  name : String
  result : EvidenceItem
deriving DecidableEq

/-- The workflow state fields the claims concern (state.py). `tools_called`
and `evidence` are annotated with `operator.add`, so node updates append. -/
structure AgentState where
  intent : Option String
  tools_called : List String
  evidence : List EvidenceItem
  policy_decision : Option JObj
deriving DecidableEq

/-- A fresh per-run state: accumulators empty, nothing decided. -/
def initialState : AgentState :=
  { intent := none, tools_called := [], evidence := [], policy_decision := none }

/-- `tool_executor_node` (graph.py) combined with the `operator.add`
annotations of state.py: one round appends the batch's tool names to
`tools_called` and the serialized results to `evidence`. -/
def apply_round (s : AgentState) (batch : List ToolCall) : AgentState :=
  { s with
      tools_called := s.tools_called ++ batch.map ToolCall.name,
      evidence := s.evidence ++ batch.map ToolCall.result }

/-- `route_after_tools` (graph.py): `"order_cancel" in tools_called`. -/
def route_after_tools (s : AgentState) : String :=
  if s.tools_called.contains "order_cancel" then "policy_guard" else "agent"

/-! ## Router (nodes/router.py) -/

def order_keywords : List String :=
  ["order", "cancel", "cancellation", "a1001", "a1002", "a1003",
   "order_id", "email", "refund", "return"]

def product_keywords : List String :=
  ["dress", "product", "wedding", "midi", "price", "size", "eta",
   "shipping", "available", "recommend", "compare", "zip"]

def guardrail_keywords : List String :=
  ["discount", "code", "coupon", "promo", "sale"]

/-- `deterministic_keyword_routing` (router.py): ordered, first-match
keyword rules over the lowercased question. -/
def deterministic_keyword_routing (question : String) : Option String :=
  let q := pyLower question
  if order_keywords.any (fun k => containsSub q k) then some "order_help"
  else if product_keywords.any (fun k => containsSub q k) then some "product_assist"
  else if guardrail_keywords.any (fun k => containsSub q k) then some "other"
  else none

/-- `router_node` (router.py): keyword rules first; otherwise the opaque
generation fallback. `fallbackParsed` is `extract_json_from_string` applied
to whatever text the generator returned: `none` when no JSON object could
be extracted, `some j` when one was. -/
def router_node (question : String) (fallbackParsed : Option JObj) : String :=
  match deterministic_keyword_routing question with
  | some r => r
  | none =>
      match fallbackParsed with
      | none => "other"
      | some j =>
          if j.isEmpty then "other"
          else
            match jGet j "destination" with
            | none => "other"
            | some (JLeaf.str d) =>
                if d = "product_assist" ∨ d = "order_help" ∨ d = "other" then d
                else "other"
            | some _ => "other"

/-! ## Product search (tools.py) -/

/-- A product record, with the fields `product_search` reads. -/
structure Product where
  title : String
  price : Int
  tags : List String
deriving DecidableEq, Repr

/-- Insert `x` into a list, before the first element it compares
less-or-equal to. -/
def insertLe (le : α → α → Bool) (x : α) : List α → List α
  | [] => [x]
  | y :: ys => if le x y then x :: y :: ys else y :: insertLe le x ys

/-- Python's `sorted`: a stable ascending sort by the total preorder `le`
(any stable sort computes the same list, so insertion sort is a faithful
model of Timsort's output). -/
def pySorted (le : α → α → Bool) : List α → List α
  | [] => []
  | x :: xs => insertLe le x (pySorted le xs)

/-- The first fallback loop of `product_search`: partial tag matching with
an early break once two results are collected. -/
def fallbackTagPass (priceOk : Product → Bool) (tags_list : List String) :
    List Product → List Product → List Product
  | [], results => results
  | p :: rest, results =>
      if priceOk p then
        if results.contains p then fallbackTagPass priceOk tags_list rest results
        else
          if tags_list.any (fun t => p.tags.contains t) then
            if 2 ≤ (results ++ [p]).length then results ++ [p]
            else fallbackTagPass priceOk tags_list rest (results ++ [p])
          else
            if 2 ≤ results.length then results
            else fallbackTagPass priceOk tags_list rest results
      else fallbackTagPass priceOk tags_list rest results

/-- `tags_list` in `product_search`: a comma-separated tag string becomes a
list of stripped tags; an absent or empty (falsy) string becomes `[]`. -/
def searchTagsList (tags : Option String) : List String :=
  match tags with
  | none => []
  | some t => if t = "" then [] else (t.splitOn ",").map String.trim

/-- The mandatory price check of `product_search`: skip `p` when a maximum
is supplied and `p.price` exceeds it. -/
def searchPriceOk (price_max : Option Int) (p : Product) : Bool :=
  match price_max with
  | none => true
  | some pm => !(pm < p.price)

/-- The main loop of `product_search`: price filter, then all-tags matching
when tags were supplied, otherwise query-in-title matching. -/
def searchMainPass (products : List Product) (query : String)
    (price_max : Option Int) (tags_list : List String) : List Product :=
  products.filter (fun p =>
    searchPriceOk price_max p &&
      (if !tags_list.isEmpty then tags_list.all (fun t => p.tags.contains t)
       else if query ≠ "" then containsSub (pyLower p.title) (pyLower query)
       else false))

/-- The first fallback of `product_search`: when strict tag matching left
fewer than two results and more than one tag was requested, add products
matching at least one tag. -/
def searchAfterTagFallback (products : List Product) (price_max : Option Int)
    (tags_list : List String) (results : List Product) : List Product :=
  if results.length < 2 && !tags_list.isEmpty && 1 < tags_list.length then
    fallbackTagPass (searchPriceOk price_max) tags_list products results
  else results

/-- The second fallback of `product_search`: when results are still short
and a price maximum exists, add the cheapest in-budget dress/midi products
not already present. -/
def searchBroaderFallback (products : List Product) (price_max : Option Int)
    (results : List Product) : List Product :=
  match price_max with
  | some pm =>
      if results.length < 2 then
        results ++ (pySorted (fun a b => a.price ≤ b.price)
          (products.filter (fun p =>
            p.price ≤ pm && !(results.contains p) &&
              (containsSub (pyLower p.title) "dress" ||
                p.tags.contains "midi")))).take (2 - results.length)
      else results
  | none => results

/-- `sort_key`'s tag-relevance score: the number of distinct requested tags
the product carries. -/
def searchScore (tags_list : List String) (p : Product) : Nat :=
  (tags_list.dedup.filter (fun t => p.tags.contains t)).length

/-- `sort_key` as a total preorder: descending tag score then ascending
price when tags were requested, ascending price otherwise. -/
def searchKeyLe (tags_list : List String) (a b : Product) : Bool :=
  if !tags_list.isEmpty then
    decide (searchScore tags_list b < searchScore tags_list a) ||
      (searchScore tags_list a == searchScore tags_list b &&
        decide (a.price ≤ b.price))
  else decide (a.price ≤ b.price)

/-- `product_search` (tools.py): mandatory price filter; tag matching when
tags are supplied, otherwise query-in-title matching; two fallback passes
that try to fill the result list up to two items; final relevance/price
sort truncated to two items. `products` is the parsed catalog. -/
def product_search (products : List Product) (query : String)
    (price_max : Option Int) (tags : Option String) : List Product :=
  (pySorted (searchKeyLe (searchTagsList tags))
    (searchBroaderFallback products price_max
      (searchAfterTagFallback products price_max (searchTagsList tags)
        (searchMainPass products query price_max
          (searchTagsList tags))))).take 2

/-! ## Spec-side definitions for comparison -/

/-- The order-id pattern as the claims word it: the character `A` followed
by exactly four digits (and nothing else), with "digit" read as the
source's `\d` reads it (any Unicode decimal digit). Written from the
claim's words, for comparison with the source's `validate_order_id`. -/
def claimOrderIdPattern (s : String) : Bool :=
  match s.data with
  | c0 :: a :: b :: c :: d :: [] =>
      c0 == 'A' && pyIsDigit a && pyIsDigit b && pyIsDigit c && pyIsDigit d
  | _ => false

/-- The trailing-newline variant that Python's `re.match(r"^A\d{4}$", ...)`
additionally accepts. -/
def claimOrderIdPatternNewline (s : String) : Bool :=
  match s.data with
  | c0 :: a :: b :: c :: d :: e :: [] =>
      c0 == 'A' && pyIsDigit a && pyIsDigit b && pyIsDigit c &&
        pyIsDigit d && e == '\n'
  | _ => false

/-- The policy-guard contract as amended: applicable only when the intent is
`order_help` and the evidence list is non-empty; the first evidence entry
parsing as an object with both a `success` and a `reason` key is the
verdict — `success == false` blocks with that entry's reason, any other
matching shape allows — and with no matching entry the decision is null.
Written from the amended claim's words (with its own scan formulation), for
comparison with the source's `policy_guard_node`. -/
def guardSpec (intent : Option String) (evidence : List EvidenceItem) :
    Option JObj :=
  if intent = some "order_help" then
    if evidence = [] then none
    else
      match (evidence.filterMap (fun it =>
          it.bind (fun o => if duckMatch o then some o else none))).head? with
      | none => none
      | some data =>
          if jGet data "success" = some (JLeaf.bool false) then
            some [("cancel_allowed", JLeaf.bool false),
                  ("reason", (jGet data "reason").getD JLeaf.null)]
          else
            some [("cancel_allowed", JLeaf.bool true)]
  else none

/-! ## Helper lemmas -/

theorem mem_insertLe {α : Type} {le : α → α → Bool} {x a : α} :
    ∀ {l : List α}, a ∈ insertLe le x l ↔ a = x ∨ a ∈ l := by
  intro l
  induction l with
  | nil => simp [insertLe]
  | cons y ys ih =>
      by_cases h : le x y = true
      · simp [insertLe, h]
      · simp only [insertLe, if_neg h, List.mem_cons, ih]
        tauto

theorem mem_pySorted {α : Type} {le : α → α → Bool} {a : α} :
    ∀ {l : List α}, a ∈ pySorted le l ↔ a ∈ l := by
  intro l
  induction l with
  | nil => simp [pySorted]
  | cons y ys ih => simp [pySorted, mem_insertLe, ih]

theorem findSomeEqHeadFilterMap {α β : Type} (f : α → Option β) :
    ∀ l : List α, l.findSome? f = (l.filterMap f).head? := by
  intro l
  induction l with
  | nil => simp
  | cons x xs ih =>
      cases hx : f x with
      | none =>
          simp only [List.findSome?_cons, hx, List.filterMap_cons]
          exact ih
      | some b =>
          simp only [List.findSome?_cons, hx, List.filterMap_cons, List.head?_cons]

theorem foldl_apply_round_fields (rounds : List (List ToolCall)) :
    ∀ s : AgentState,
      (rounds.foldl apply_round s).tools_called =
        s.tools_called ++ (rounds.map (fun b => b.map ToolCall.name)).flatten
      ∧ (rounds.foldl apply_round s).evidence =
        s.evidence ++ (rounds.map (fun b => b.map ToolCall.result)).flatten
      ∧ (rounds.foldl apply_round s).intent = s.intent := by
  induction rounds with
  | nil => intro s; simp
  | cons b rest ih =>
      intro s
      have h := ih (apply_round s b)
      simpa [apply_round, List.append_assoc] using h

/-! ## Claim theorems -/

/-- C7: for every order id and fixed reference time, running `order_cancel`
twice in sequence over the same store yields the same result (hence the same
success verdict) both times, and each call leaves the order store
unchanged. -/
theorem order_cancel_idempotent_and_readonly
    (store : Store) (order_id : String) (now : Int) :
    (order_cancel_run store order_id now).2 = store
    ∧ (order_cancel_run (order_cancel_run store order_id now).2 order_id now).2
        = store
    ∧ (order_cancel_run (order_cancel_run store order_id now).2 order_id now).1
        = (order_cancel_run store order_id now).1
    ∧ jGet (order_cancel_run (order_cancel_run store order_id now).2
          order_id now).1 "success"
        = jGet (order_cancel_run store order_id now).1 "success" := by
  refine ⟨rfl, rfl, rfl, rfl⟩

/-- C2 counterexample: with intent `order_help` and a non-empty evidence
list in which no entry has both a `success` and a `reason` key, the guard
returns a null decision — not the `{allowed: true}` decision the claim
asserts for "no matching evidence". -/
theorem policy_guard_no_match_yields_null :
    policy_guard_node (some "order_help") [some [("x", JLeaf.null)]] = none
    ∧ policy_guard_node (some "order_help") [some [("x", JLeaf.null)]]
        ≠ some [("cancel_allowed", JLeaf.bool true)] := by
  refine ⟨by decide, by decide⟩

/-- C2 (amended): `policy_guard_node` agrees everywhere with the amended
contract `guardSpec`: a matching entry with `success == false` blocks with
its reason, a matching entry of any other shape allows, and no matching
entry — like an intent other than `order_help` or empty evidence — yields a
null decision. -/
theorem policy_guard_matches_amended_contract
    (intent : Option String) (evidence : List EvidenceItem) :
    policy_guard_node intent evidence = guardSpec intent evidence := by
  have hf : findCancelOutput evidence =
      (evidence.filterMap (fun it =>
        it.bind (fun o => if duckMatch o then some o else none))).head? := by
    have hfun : (fun item : EvidenceItem =>
        match item with
        | none => none
        | some o => if duckMatch o then some o else none) =
        (fun it : EvidenceItem =>
          it.bind (fun o => if duckMatch o then some o else none)) := by
      funext it
      cases it <;> rfl
    rw [findCancelOutput, hfun, findSomeEqHeadFilterMap]
  by_cases hi : intent = some "order_help"
  · subst hi
    by_cases he : evidence = []
    · subst he
      simp [policy_guard_node, guardSpec]
    · have hne : evidence.isEmpty = false := by
        cases evidence with
        | nil => exact absurd rfl he
        | cons a l => rfl
      cases hd : (evidence.filterMap (fun it =>
          it.bind (fun o => if duckMatch o then some o else none))).head? with
      | none => simp [policy_guard_node, guardSpec, hf, hne, he, hd]
      | some data =>
          by_cases hs : jGet data "success" = some (JLeaf.bool false)
          · simp [policy_guard_node, guardSpec, hf, hne, he, hd, hs]
          · simp [policy_guard_node, guardSpec, hf, hne, he, hd, hs]
  · simp [policy_guard_node, guardSpec, hi]

/-- C4: starting from a fresh run state, after any sequence of
tool-execution rounds the accumulated `tools_called` and `evidence` lists
are the round-by-round concatenations (entries are appended, never
replaced), they have equal length, and that length is the total number of
individual tool invocations summed over all rounds. -/
theorem tools_called_evidence_accumulation (rounds : List (List ToolCall)) :
    (rounds.foldl apply_round initialState).tools_called =
      (rounds.map (fun b => b.map ToolCall.name)).flatten
    ∧ (rounds.foldl apply_round initialState).evidence =
      (rounds.map (fun b => b.map ToolCall.result)).flatten
    ∧ (rounds.foldl apply_round initialState).tools_called.length =
      (rounds.foldl apply_round initialState).evidence.length
    ∧ (rounds.foldl apply_round initialState).tools_called.length =
      (rounds.map List.length).sum
    ∧ ∀ (s : AgentState) (batch : List ToolCall),
        (apply_round s batch).tools_called =
          s.tools_called ++ batch.map ToolCall.name
        ∧ (apply_round s batch).evidence =
          s.evidence ++ batch.map ToolCall.result := by
  obtain ⟨ht, he, -⟩ := foldl_apply_round_fields rounds initialState
  have hc : (List.length ∘ fun b : List ToolCall => List.map ToolCall.name b)
      = List.length := by
    funext b; simp
  have hc2 : (List.length ∘ fun b : List ToolCall => List.map ToolCall.result b)
      = List.length := by
    funext b; simp
  refine ⟨?_, ?_, ?_, ?_, fun s batch => ⟨rfl, rfl⟩⟩
  · rw [ht]; simp [initialState]
  · rw [he]; simp [initialState]
  · rw [ht, he]
    simp only [initialState, List.nil_append, List.length_flatten, List.map_map]
    rw [hc, hc2]
  · rw [ht]
    simp only [initialState, List.nil_append, List.length_flatten, List.map_map]
    rw [hc]

/-- C8: for every utterance and every possible parse of the opaque
generation fallback's text, the classifier returns a member of the closed
set; and whenever the keyword rules defer to the fallback and the fallback
output does not name an in-set destination (unparsable text, an empty or
keyless object, a non-string value, or a name outside the closed set), the
result defaults to `other`. -/
theorem classifier_closed (question : String) (fallbackParsed : Option JObj) :
    (router_node question fallbackParsed = "product_assist"
      ∨ router_node question fallbackParsed = "order_help"
      ∨ router_node question fallbackParsed = "other")
    ∧ (deterministic_keyword_routing question = none →
        (¬ ∃ j : JObj, ∃ d : String, fallbackParsed = some j
            ∧ jGet j "destination" = some (JLeaf.str d)
            ∧ (d = "product_assist" ∨ d = "order_help" ∨ d = "other")) →
        router_node question fallbackParsed = "other") := by
  constructor
  · unfold router_node
    cases hd : deterministic_keyword_routing question with
    | some r =>
        simp only [deterministic_keyword_routing] at hd
        split_ifs at hd <;> simp_all
    | none =>
        cases fallbackParsed with
        | none => simp
        | some j =>
            by_cases hj : j.isEmpty
            · simp [hj]
            · cases hg : jGet j "destination" with
              | none => simp [hj, hg]
              | some v =>
                  cases v with
                  | str d =>
                      by_cases hin : d = "product_assist" ∨ d = "order_help"
                        ∨ d = "other"
                      · rcases hin with h | h | h <;> subst h <;> simp [hj, hg]
                      · simp [hj, hg, hin]
                  | null => simp [hj, hg]
                  | bool b => simp [hj, hg]
                  | num q => simp [hj, hg]
  · intro hd hno
    unfold router_node
    rw [hd]
    cases fallbackParsed with
    | none => rfl
    | some j =>
        by_cases hj : j.isEmpty
        · simp [hj]
        · cases hg : jGet j "destination" with
          | none => simp [hj, hg]
          | some v =>
              cases v with
              | str d =>
                  by_cases hin : d = "product_assist" ∨ d = "order_help"
                    ∨ d = "other"
                  · exact absurd ⟨j, d, rfl, hg, hin⟩ hno
                  · simp [hj, hg, hin]
              | null => simp [hj, hg]
              | bool b => simp [hj, hg]
              | num q => simp [hj, hg]

/-- C8 witness: an utterance with no routing keyword, and fallback output
naming a destination outside the closed set — the classifier returns
`other`. -/
theorem classifier_closed_witness :
    deterministic_keyword_routing "hello" = none
    ∧ router_node "hello" (some [("destination", JLeaf.str "weird")])
        = "other" :=
  ⟨by decide,
    (classifier_closed "hello" (some [("destination", JLeaf.str "weird")])).2
      (by decide)
      (by
        rintro ⟨j, d, hj, hd, hin⟩
        injection hj with hj2
        subst hj2
        have hw : jGet [("destination", JLeaf.str "weird")] "destination"
            = some (JLeaf.str "weird") := by decide
        rw [hw] at hd
        have hd2 : d = "weird" := (JLeaf.str.inj (Option.some.inj hd)).symm
        subst hd2
        rcases hin with h | h | h <;> exact absurd h (by decide))⟩

/-- The source's order-id validator accepts exactly the claim's pattern or
its trailing-newline variant. -/
theorem validate_order_id_eq_patterns (s : String) :
    validate_order_id s =
      (claimOrderIdPattern s || claimOrderIdPatternNewline s) := by
  unfold validate_order_id claimOrderIdPattern claimOrderIdPatternNewline
  rcases hd : s.data with - | ⟨c0, - | ⟨c1, - | ⟨c2, - | ⟨c3, - | ⟨c4, rest⟩⟩⟩⟩⟩
  · rfl
  · rfl
  · rfl
  · rfl
  · rfl
  · rcases rest with - | ⟨c5, rest2⟩
    · simp
    · rcases rest2 with - | ⟨c6, rest3⟩
      · simp [Bool.and_assoc]
      · simp

/-- C1: for an order found in the store (with a well-formed id) and any
supplied reference time, `order_cancel` succeeds precisely when the elapsed
time is at most 60 minutes (inclusive at exactly 60.0), and beyond that the
result is blocked with a reason containing "60 minutes". -/
theorem order_cancel_sixty_minute_boundary
    (store : Store) (order_id : String) (o : Order) (now : Int)
    (hv : validate_order_id order_id = true)
    (hfind : store.find? (fun x => x.order_id == order_id) = some o) :
    (jGet (order_cancel store order_id now) "success" = some (JLeaf.bool true)
      ↔ ((now - o.created_at : Int) : Rat) / 60 ≤ 60)
    ∧ (¬ ((now - o.created_at : Int) : Rat) / 60 ≤ 60 →
        jGet (order_cancel store order_id now) "success"
            = some (JLeaf.bool false)
        ∧ ∃ r, jGet (order_cancel store order_id now) "reason"
              = some (JLeaf.str r)
            ∧ containsSub r "60 minutes" = true) := by
  have hob : order_cancel store order_id now =
      (if ((now - o.created_at : Int) : Rat) / 60 ≤ 60 then
        [("success", JLeaf.bool true),
         ("message", JLeaf.str ("Order " ++ order_id ++
            " has been successfully canceled.")),
         ("canceled_at", JLeaf.num (now : Rat)),
         ("minutes_since_order",
          JLeaf.num (pyRound1 (((now - o.created_at : Int) : Rat) / 60)))]
      else
        [("success", JLeaf.bool false),
         ("reason", JLeaf.str
            "Cancellation failed: Order was placed more than 60 minutes ago."),
         ("minutes_since_order",
          JLeaf.num ((pyTrunc (((now - o.created_at : Int) : Rat) / 60) : Int) : Rat)),
         ("policy", JLeaf.str
            "Orders can only be canceled within 60 minutes of placement.")]) := by
    simp [order_cancel, hv, hfind]
  by_cases hle : ((now - o.created_at : Int) : Rat) / 60 ≤ 60
  · rw [hob, if_pos hle]
    refine ⟨iff_of_true (by simp [jGet, List.find?]) hle, fun h => absurd hle h⟩
  · rw [hob, if_neg hle]
    refine ⟨iff_of_false (by simp [jGet, List.find?]) hle, fun h => ?_⟩
    refine ⟨by simp [jGet, List.find?],
      "Cancellation failed: Order was placed more than 60 minutes ago.",
      by simp [jGet, List.find?], by decide⟩

/-- C1 witness: a concrete store and order, with the reference time 61
minutes after creation. -/
theorem order_cancel_sixty_minute_boundary_witness :
    validate_order_id "A1001" = true
    ∧ ([⟨"A1001", "a@b.com", 0⟩] : Store).find?
        (fun x => x.order_id == "A1001") = some ⟨"A1001", "a@b.com", 0⟩
    ∧ ((jGet (order_cancel [⟨"A1001", "a@b.com", 0⟩] "A1001" 3660) "success"
          = some (JLeaf.bool true)
        ↔ ((3660 - (⟨"A1001", "a@b.com", 0⟩ : Order).created_at : Int) : Rat) / 60
            ≤ 60)
      ∧ (¬ ((3660 - (⟨"A1001", "a@b.com", 0⟩ : Order).created_at : Int) : Rat) / 60
            ≤ 60 →
          jGet (order_cancel [⟨"A1001", "a@b.com", 0⟩] "A1001" 3660) "success"
              = some (JLeaf.bool false)
          ∧ ∃ r, jGet (order_cancel [⟨"A1001", "a@b.com", 0⟩] "A1001" 3660)
                "reason" = some (JLeaf.str r)
              ∧ containsSub r "60 minutes" = true)) :=
  ⟨by decide, by decide,
    order_cancel_sixty_minute_boundary [⟨"A1001", "a@b.com", 0⟩] "A1001"
      ⟨"A1001", "a@b.com", 0⟩ 3660 (by decide) (by decide)⟩

/-- C5: a successful cancellation result carries the confirmation message,
the cancellation timestamp and the elapsed minutes rounded to one decimal;
a policy-blocked result carries the fixed policy statement, a
human-readable reason and the elapsed minutes truncated to an integer. -/
theorem order_cancel_result_payloads
    (store : Store) (order_id : String) (o : Order) (now : Int)
    (hv : validate_order_id order_id = true)
    (hfind : store.find? (fun x => x.order_id == order_id) = some o) :
    (((now - o.created_at : Int) : Rat) / 60 ≤ 60 →
      order_cancel store order_id now =
        [("success", JLeaf.bool true),
         ("message", JLeaf.str ("Order " ++ order_id ++
            " has been successfully canceled.")),
         ("canceled_at", JLeaf.num (now : Rat)),
         ("minutes_since_order",
          JLeaf.num (pyRound1 (((now - o.created_at : Int) : Rat) / 60)))])
    ∧ (¬ ((now - o.created_at : Int) : Rat) / 60 ≤ 60 →
      order_cancel store order_id now =
        [("success", JLeaf.bool false),
         ("reason", JLeaf.str
            "Cancellation failed: Order was placed more than 60 minutes ago."),
         ("minutes_since_order",
          JLeaf.num ((pyTrunc (((now - o.created_at : Int) : Rat) / 60) : Int) : Rat)),
         ("policy", JLeaf.str
            "Orders can only be canceled within 60 minutes of placement.")]) := by
  constructor <;> intro h <;> rw [Int.cast_sub] at h <;>
    simp [order_cancel, hv, hfind, h, not_le]

/-- C5 witness: a concrete store and order, reference time 90 seconds
(1.5 minutes) after creation. -/
theorem order_cancel_result_payloads_witness :
    validate_order_id "A1001" = true
    ∧ ([⟨"A1001", "a@b.com", 0⟩] : Store).find?
        (fun x => x.order_id == "A1001") = some ⟨"A1001", "a@b.com", 0⟩
    ∧ ((((90 - (⟨"A1001", "a@b.com", 0⟩ : Order).created_at : Int) : Rat) / 60
          ≤ 60 →
        order_cancel [⟨"A1001", "a@b.com", 0⟩] "A1001" 90 =
          [("success", JLeaf.bool true),
           ("message", JLeaf.str ("Order " ++ "A1001" ++
              " has been successfully canceled.")),
           ("canceled_at", JLeaf.num ((90 : Int) : Rat)),
           ("minutes_since_order",
            JLeaf.num (pyRound1
              (((90 - (⟨"A1001", "a@b.com", 0⟩ : Order).created_at : Int) : Rat)
                / 60)))])
      ∧ (¬ ((90 - (⟨"A1001", "a@b.com", 0⟩ : Order).created_at : Int) : Rat) / 60
            ≤ 60 →
        order_cancel [⟨"A1001", "a@b.com", 0⟩] "A1001" 90 =
          [("success", JLeaf.bool false),
           ("reason", JLeaf.str
              "Cancellation failed: Order was placed more than 60 minutes ago."),
           ("minutes_since_order",
            JLeaf.num ((pyTrunc
              (((90 - (⟨"A1001", "a@b.com", 0⟩ : Order).created_at : Int) : Rat)
                / 60) : Int) : Rat)),
           ("policy", JLeaf.str
              "Orders can only be canceled within 60 minutes of placement.")])) :=
  ⟨by decide, by decide,
    order_cancel_result_payloads [⟨"A1001", "a@b.com", 0⟩] "A1001"
      ⟨"A1001", "a@b.com", 0⟩ 90 (by decide) (by decide)⟩

/-- C6 counterexample: `"A1234\n"` is not `A` followed by exactly four
digits, yet `order_cancel` does not return the format error for it —
`re.match(r"^A\d{4}$", ...)` accepts the trailing newline, so the call
proceeds to the store lookup and returns a not-found error instead. -/
theorem order_cancel_newline_id_escapes_format_check :
    claimOrderIdPattern "A1234\n" = false
    ∧ validate_order_id "A1234\n" = true
    ∧ order_cancel [] "A1234\n" 0 =
        [("success", JLeaf.bool false),
         ("error", JLeaf.str "Order A1234\n not found in the system.")]
    ∧ order_cancel [] "A1234\n" 0 ≠
        [("success", JLeaf.bool false),
         ("error", JLeaf.str
            "Invalid order ID format: A1234\n. Order IDs should be in format A1234.")] := by
  refine ⟨by decide, by decide, by decide, by decide⟩

/-- C6 (amended): for every order id matching neither the `A`-plus-four-
digits pattern nor its trailing-newline variant, `order_cancel` returns the
structured format-error result, for every store alike (so the store is
never consulted), and — being a total function — raises nothing. -/
theorem order_cancel_invalid_format_rejected
    (order_id : String) (now : Int)
    (h1 : claimOrderIdPattern order_id = false)
    (h2 : claimOrderIdPatternNewline order_id = false) :
    ∀ store : Store, order_cancel store order_id now =
      [("success", JLeaf.bool false),
       ("error", JLeaf.str ("Invalid order ID format: " ++ order_id ++
          ". Order IDs should be in format A1234."))] := by
  intro store
  have hv : validate_order_id order_id = false := by
    rw [validate_order_id_eq_patterns, h1, h2]
    rfl
  simp [order_cancel, hv]

/-- C6 witness: the malformed id `"B123"` against the empty store. -/
theorem order_cancel_invalid_format_rejected_witness :
    claimOrderIdPattern "B123" = false
    ∧ claimOrderIdPatternNewline "B123" = false
    ∧ order_cancel [] "B123" 0 =
        [("success", JLeaf.bool false),
         ("error", JLeaf.str
            "Invalid order ID format: B123. Order IDs should be in format A1234.")] :=
  ⟨by decide, by decide,
    order_cancel_invalid_format_rejected "B123" 0 (by decide) (by decide) []⟩

/-- C3: in any run in which the earlier tool rounds all routed back to the
agent (as the graph requires for the run to reach another round), the
transition out of the tool executor goes to the policy guard exactly when
the most recent batch includes `order_cancel`, and loops back to the agent
exactly when it does not — regardless of the intent, which
`route_after_tools` never reads. -/
theorem route_after_tools_cancel_batch
    (earlier : List (List ToolCall)) (b : List ToolCall) (it : Option String)
    (hprev : ∀ k, k < earlier.length →
      route_after_tools ((earlier.take (k + 1)).foldl apply_round
        { initialState with intent := it }) = "agent") :
    (route_after_tools ((earlier ++ [b]).foldl apply_round
        { initialState with intent := it }) = "policy_guard"
      ↔ (b.map ToolCall.name).contains "order_cancel" = true)
    ∧ (route_after_tools ((earlier ++ [b]).foldl apply_round
        { initialState with intent := it }) = "agent"
      ↔ (b.map ToolCall.name).contains "order_cancel" = false) := by
  have htc : ∀ rs : List (List ToolCall),
      ((rs.foldl apply_round { initialState with intent := it }).tools_called)
        = (rs.map (fun bb => bb.map ToolCall.name)).flatten := by
    intro rs
    have h := (foldl_apply_round_fields rs { initialState with intent := it }).1
    rw [h]
    simp [initialState]
  have hnc : ((earlier.map (fun bb => bb.map ToolCall.name)).flatten).contains
      "order_cancel" = false := by
    cases he : earlier with
    | nil => simp
    | cons hd tl =>
        have hk : tl.length < earlier.length := by rw [he]; simp
        have h := hprev tl.length hk
        rw [he] at h
        have htake : (hd :: tl).take (tl.length + 1) = hd :: tl := by
          have hlen : tl.length + 1 = (hd :: tl).length := by simp
          rw [hlen, List.take_length]
        rw [htake] at h
        unfold route_after_tools at h
        rw [htc (hd :: tl)] at h
        by_cases hc : (((hd :: tl).map (fun bb =>
            bb.map ToolCall.name)).flatten).contains "order_cancel" = true
        · rw [if_pos hc] at h
          exact absurd h (by decide)
        · simpa using hc
  have hnc2 : ((earlier.map (fun bb => bb.map ToolCall.name)).flatten).any
      (fun x => "order_cancel" == x) = false := by
    simpa [List.contains_eq_any_beq] using hnc
  have hroute : route_after_tools ((earlier ++ [b]).foldl apply_round
      { initialState with intent := it })
      = (if (b.map ToolCall.name).contains "order_cancel" = true
         then "policy_guard" else "agent") := by
    unfold route_after_tools
    rw [htc (earlier ++ [b])]
    have hcond : (((earlier ++ [b]).map (fun bb =>
        bb.map ToolCall.name)).flatten).contains "order_cancel"
        = (b.map ToolCall.name).contains "order_cancel" := by
      simp only [List.map_append, List.map_cons, List.map_nil,
        List.flatten_append, List.flatten_cons, List.flatten_nil,
        List.append_nil, List.contains_eq_any_beq, List.any_append, hnc2,
        Bool.false_or]
    rw [hcond]
  rw [hroute]
  by_cases hb : (b.map ToolCall.name).contains "order_cancel" = true
  · rw [if_pos hb]
    constructor
    · exact iff_of_true rfl hb
    · refine iff_of_false (by decide) ?_
      intro hfalse
      exact absurd (hb.symm.trans hfalse) (by decide)
  · have hb2 : (b.map ToolCall.name).contains "order_cancel" = false := by
      simpa using hb
    rw [if_neg hb]
    constructor
    · exact iff_of_false (by decide) hb
    · exact iff_of_true rfl hb2

/-- C3 witness: a single-round run whose batch contains only `order_lookup`,
with intent `order_help` — control returns to the agent. -/
theorem route_after_tools_cancel_batch_witness :
    (route_after_tools ((([] : List (List ToolCall)) ++
        [[ToolCall.mk "order_lookup" none]]).foldl apply_round
        { initialState with intent := some "order_help" }) = "policy_guard"
      ↔ (([ToolCall.mk "order_lookup" none] : List ToolCall).map
          ToolCall.name).contains "order_cancel" = true)
    ∧ (route_after_tools ((([] : List (List ToolCall)) ++
        [[ToolCall.mk "order_lookup" none]]).foldl apply_round
        { initialState with intent := some "order_help" }) = "agent"
      ↔ (([ToolCall.mk "order_lookup" none] : List ToolCall).map
          ToolCall.name).contains "order_cancel" = false) :=
  route_after_tools_cancel_batch [] [ToolCall.mk "order_lookup" none]
    (some "order_help") (fun k hk => absurd hk (Nat.not_lt_zero k))

/-- A result whose `success` field is `true` came from the success branch of
`order_cancel`: the order was found and the window check passed. -/
theorem order_cancel_success_shape (store : Store) (order_id : String)
    (now : Int)
    (hsucc : jGet (order_cancel store order_id now) "success"
        = some (JLeaf.bool true)) :
    ∃ o : Order, order_cancel store order_id now =
      [("success", JLeaf.bool true),
       ("message", JLeaf.str ("Order " ++ order_id ++
          " has been successfully canceled.")),
       ("canceled_at", JLeaf.num (now : Rat)),
       ("minutes_since_order",
        JLeaf.num (pyRound1 (((now - o.created_at : Int) : Rat) / 60)))] := by
  unfold order_cancel at hsucc ⊢
  by_cases hv : validate_order_id order_id = true
  · simp only [hv, Bool.not_true, Bool.false_eq_true, if_false] at hsucc ⊢
    cases hf : store.find? (fun o => o.order_id == order_id) with
    | none =>
        rw [hf] at hsucc
        simp [jGet, List.find?] at hsucc
    | some o =>
        rw [hf] at hsucc
        by_cases hle : ((now - o.created_at : Int) : Rat) / 60 ≤ 60
        · refine ⟨o, ?_⟩
          rw [Int.cast_sub] at hle
          simp [hle]
        · exfalso
          rw [Int.cast_sub] at hle
          simp [hle, jGet, List.find?] at hsucc
  · have hv0 : validate_order_id order_id = false := by simpa using hv
    rw [hv0] at hsucc
    simp [jGet, List.find?] at hsucc

/-- Every evidence entry failing the duck test makes the guard's scan come
up empty. -/
theorem findCancelOutput_eq_none (evidence : List EvidenceItem)
    (h : ∀ o : JObj, some o ∈ evidence → duckMatch o = false) :
    findCancelOutput evidence = none := by
  induction evidence with
  | nil => rfl
  | cons x xs ih =>
      have hrest := ih (fun o ho => h o (List.mem_cons_of_mem _ ho))
      cases x with
      | none =>
          unfold findCancelOutput at hrest ⊢
          rw [List.findSome?_cons]
          exact hrest
      | some ob =>
          have hd : duckMatch ob = false := h ob (by simp)
          unfold findCancelOutput at hrest ⊢
          rw [List.findSome?_cons]
          simp only [hd, Bool.false_eq_true, if_false]
          exact hrest

/-- C10: with intent `order_help` and evidence containing a successful
`order_cancel` result (and no entry with both a `success` and a `reason`
key), the policy guard returns a null decision, because the success payload
carries a `message` key but no `reason` key and so never matches the duck
test. -/
theorem policy_guard_null_after_successful_cancel
    (store : Store) (order_id : String) (now : Int)
    (evidence : List EvidenceItem)
    (hsucc : jGet (order_cancel store order_id now) "success"
        = some (JLeaf.bool true))
    (hin : (some (order_cancel store order_id now) : EvidenceItem) ∈ evidence)
    (hothers : ∀ o : JObj, some o ∈ evidence →
        o ≠ order_cancel store order_id now → duckMatch o = false) :
    jGet (order_cancel store order_id now) "message" ≠ none
    ∧ jGet (order_cancel store order_id now) "reason" = none
    ∧ duckMatch (order_cancel store order_id now) = false
    ∧ policy_guard_node (some "order_help") evidence = none := by
  obtain ⟨o, hob⟩ := order_cancel_success_shape store order_id now hsucc
  have hdm : duckMatch (order_cancel store order_id now) = false := by
    rw [hob]
    simp [duckMatch, jGet, List.find?]
  have hall : ∀ ob : JObj, some ob ∈ evidence → duckMatch ob = false := by
    intro ob hx
    by_cases heq : ob = order_cancel store order_id now
    · rw [heq]
      exact hdm
    · exact hothers ob hx heq
  have hne : evidence.isEmpty = false := by
    cases evidence with
    | nil => exact absurd hin (List.not_mem_nil _)
    | cons a l => rfl
  refine ⟨?_, ?_, hdm, ?_⟩
  · rw [hob]
    simp [jGet, List.find?]
  · rw [hob]
    simp [jGet, List.find?]
  · simp [policy_guard_node, hne, findCancelOutput_eq_none evidence hall]

/-- C10 witness: a concrete store and a successful cancellation one minute
after creation, its result the only evidence entry. -/
theorem policy_guard_null_after_successful_cancel_witness :
    jGet (order_cancel [⟨"A1001", "e", 0⟩] "A1001" 60) "success"
        = some (JLeaf.bool true)
    ∧ (some (order_cancel [⟨"A1001", "e", 0⟩] "A1001" 60) : EvidenceItem)
        ∈ [some (order_cancel [⟨"A1001", "e", 0⟩] "A1001" 60)]
    ∧ (∀ o : JObj, some o ∈
          [some (order_cancel [⟨"A1001", "e", 0⟩] "A1001" 60)] →
        o ≠ order_cancel [⟨"A1001", "e", 0⟩] "A1001" 60 →
        duckMatch o = false)
    ∧ (jGet (order_cancel [⟨"A1001", "e", 0⟩] "A1001" 60) "message" ≠ none
      ∧ jGet (order_cancel [⟨"A1001", "e", 0⟩] "A1001" 60) "reason" = none
      ∧ duckMatch (order_cancel [⟨"A1001", "e", 0⟩] "A1001" 60) = false
      ∧ policy_guard_node (some "order_help")
          [some (order_cancel [⟨"A1001", "e", 0⟩] "A1001" 60)] = none) := by
  have hsucc : jGet (order_cancel [⟨"A1001", "e", 0⟩] "A1001" 60) "success"
      = some (JLeaf.bool true) := by
    have h : (60 : Rat) / 60 ≤ 60 := by norm_num
    simp [order_cancel, validate_order_id, List.find?, jGet, h]
  have hothers : ∀ o : JObj, some o ∈
      [some (order_cancel [⟨"A1001", "e", 0⟩] "A1001" 60)] →
      o ≠ order_cancel [⟨"A1001", "e", 0⟩] "A1001" 60 →
      duckMatch o = false := by
    intro o ho hne
    simp only [List.mem_singleton, Option.some.injEq] at ho
    exact absurd ho hne
  exact ⟨hsucc, by simp, hothers,
    policy_guard_null_after_successful_cancel [⟨"A1001", "e", 0⟩] "A1001" 60
      [some (order_cancel [⟨"A1001", "e", 0⟩] "A1001" 60)] hsucc (by simp)
      hothers⟩

/-- Elements the first fallback pass adds all satisfy the price check. -/
theorem mem_fallbackTagPass (priceOk : Product → Bool) (tl : List String) :
    ∀ (ps res : List Product) (x : Product),
      x ∈ fallbackTagPass priceOk tl ps res → x ∈ res ∨ priceOk x = true := by
  intro ps
  induction ps with
  | nil => intro res x hx; exact Or.inl hx
  | cons p rest ih =>
      intro res x hx
      unfold fallbackTagPass at hx
      split_ifs at hx with h1 h2 h3 h4 h5
      · exact ih res x hx
      · rcases List.mem_append.mp hx with h | h
        · exact Or.inl h
        · right
          rw [List.mem_singleton.mp h]
          exact h1
      · rcases ih (res ++ [p]) x hx with h | h
        · rcases List.mem_append.mp h with h | h
          · exact Or.inl h
          · right
            rw [List.mem_singleton.mp h]
            exact h1
        · exact Or.inr h
      · exact Or.inl hx
      · exact ih res x hx
      · exact ih res x hx

/-- Everything the main pass returns passed the price check. -/
theorem searchMainPass_priceOk (products : List Product) (query : String)
    (price_max : Option Int) (tags_list : List String) :
    ∀ x ∈ searchMainPass products query price_max tags_list,
      searchPriceOk price_max x = true := by
  intro x hx
  have hx2 := (List.mem_filter.mp hx).2
  simp only [Bool.and_eq_true] at hx2
  exact hx2.1

/-- The tag fallback only ever adds products that passed the price check. -/
theorem searchAfterTagFallback_priceOk (products : List Product)
    (price_max : Option Int) (tags_list : List String)
    (results : List Product) :
    ∀ x ∈ searchAfterTagFallback products price_max tags_list results,
      x ∈ results ∨ searchPriceOk price_max x = true := by
  intro x hx
  unfold searchAfterTagFallback at hx
  split_ifs at hx with h
  · exact mem_fallbackTagPass _ _ products results x hx
  · exact Or.inl hx

/-- The broader fallback only ever adds products within the price maximum. -/
theorem searchBroaderFallback_price (products : List Product) (pm : Int)
    (results : List Product) :
    ∀ x ∈ searchBroaderFallback products (some pm) results,
      x ∈ results ∨ x.price ≤ pm := by
  intro x hx
  unfold searchBroaderFallback at hx
  split_ifs at hx with h
  · rcases List.mem_append.mp hx with h1 | h1
    · exact Or.inl h1
    · right
      have h2 := mem_pySorted.mp (List.mem_of_mem_take h1)
      have h3 := (List.mem_filter.mp h2).2
      simp only [Bool.and_eq_true] at h3
      exact of_decide_eq_true h3.1.1
  · exact Or.inl hx

/-- C9: with a supplied price maximum, `product_search` returns at most two
products, each within the maximum; and on a catalog holding exactly a $95
midi dress tagged wedding/midi and a $150 midi dress, the query
"midi dress" with maximum 120 returns only the $95 item. -/
theorem product_search_price_cap_and_scenario :
    (∀ (products : List Product) (query : String) (pm : Int)
        (tags : Option String),
      (product_search products query (some pm) tags).length ≤ 2
      ∧ ∀ p ∈ product_search products query (some pm) tags, p.price ≤ pm)
    ∧ product_search
        [⟨"Satin Midi Dress", 95, ["wedding", "midi"]⟩,
         ⟨"Floral Midi Dress", 150, ["midi"]⟩]
        "midi dress" (some 120) none
      = [⟨"Satin Midi Dress", 95, ["wedding", "midi"]⟩] := by
  constructor
  · intro products query pm tags
    refine ⟨?_, ?_⟩
    · unfold product_search
      exact List.length_take_le 2 _
    · intro p hp
      unfold product_search at hp
      have hp2 := mem_pySorted.mp (List.mem_of_mem_take hp)
      rcases searchBroaderFallback_price products pm _ p hp2 with h | h
      · rcases searchAfterTagFallback_priceOk products (some pm) _ _ p h
          with h1 | h1
        · have h2 := searchMainPass_priceOk products query (some pm) _ p h1
          have h3 : ¬ (pm < p.price) := by simpa [searchPriceOk] using h2
          omega
        · have h3 : ¬ (pm < p.price) := by simpa [searchPriceOk] using h1
          omega
      · exact h
  · decide
